import Mathlib

/-!
# Verification of the guarded text-generation sequencer and RAG retrieval

Shallow embedding of the client-side orchestration code of the repository:

* `TextGenerationWithGuardrails` (notebook
  `task_04_responsible_ai/04.01_bedrock_guardrails_apply_guardrail_api.ipynb`):
  the guarded generation pipeline `generate_and_analyze` together with its
  helpers `generate_text`, `analyze_text`, `analyze_prompt`, `analyze_output`.
* The RAG notebook functions `apply_output_guardrail`, `retrieve_context` and
  `get_opensearch_vector_context`.

External managed services (the Bedrock ApplyGuardrail API, the SageMaker
text-generation endpoint, the HuggingFace embedding pipeline and the
OpenSearch k-NN index) are opaque collaborators; they are modelled as oracle
functions from the request actually built by the code to a response value.
Remote-call failures (boto3 `ClientError`, generic exceptions) are modelled
as an `Except`-style error value returned by the oracle, and Python
exceptions that the code itself can raise (re-raised `ClientError`,
`IndexError` from indexing an empty list) appear as explicit error results.
Functions that perform remote calls additionally return the sequence of
external calls they issued, so that temporal claims (order and number of
calls) can be stated.
-/

namespace Guardrails

/-- One item of the `content` list passed to `apply_guardrail`:
`{"text": {"text": ..., "qualifiers": [...]}}`.  The `qualifiers` key is
optional (the RAG notebook's `apply_output_guardrail` omits it). -/
structure ContentItem where
  text : String
  qualifiers : Option (List String)
  deriving DecidableEq, Repr

/-- The request the code sends to the Bedrock `apply_guardrail` API. -/
structure GuardrailRequest where
  guardrailIdentifier : String
  guardrailVersion : String
  source : String
  content : List ContentItem
  deriving DecidableEq, Repr

/-- One element of the `outputs` list of an `apply_guardrail` response.
The `text` key may be absent (the code reads it with `.get`). -/
structure GuardrailOutput where
  text : Option String
  deriving DecidableEq, Repr

/-- An `apply_guardrail` API response, restricted to the keys the code
reads: `action` (read with `.get("action", "")`) and `outputs` (read with
`.get("outputs", [{}])` in the class and with `'outputs' in response` in the
RAG notebook).  Both keys may be absent. -/
structure GuardrailResponse where
  action : Option String
  outputs : Option (List GuardrailOutput)
  deriving DecidableEq, Repr

/-- The `parameters` object of the SageMaker generation payload. -/
structure GenParameters where
  max_new_tokens : Nat
  temperature : ℚ
  stop : String
  deriving DecidableEq, Repr

/-- The JSON payload `{"inputs": ..., "parameters": {...}}` sent to the
SageMaker endpoint by `generate_text`. -/
structure GenPayload where
  inputs : String
  parameters : GenParameters
  deriving DecidableEq, Repr

/-- A SageMaker endpoint response, restricted to the key the code reads:
`response.get('generated_text', '')`. -/
structure GenResponse where
  generated_text : Option String
  deriving DecidableEq, Repr

/-- The immutable state of a `TextGenerationWithGuardrails` instance, as set
by `__init__` and never reassigned afterwards. -/
structure TGWG where
  endpoint_name : String
  model_id : String
  guardrail_id : String
  guardrail_version : String
  deriving DecidableEq, Repr

/-- The opaque external collaborators: `bedrock_runtime.apply_guardrail`
(which either returns a response dict or raises a `ClientError`, modelled by
`Except`) and `predictor.predict`. -/
structure Env where
  applyGuardrail : GuardrailRequest → Except String GuardrailResponse
  predict : GenPayload → GenResponse

/-- A Python exception escaping from the class's methods: a re-raised boto3
`ClientError`, or the `IndexError` raised by `[0]` on an empty list. -/
inductive PyExn where
  | clientError (msg : String)
  | indexError
  deriving DecidableEq, Repr

/-- Result of `analyze_text`: either the returned triple
`(passed, message, details)` or a propagated exception. -/
inductive AnalyzeResult where
  | ok (passed : Bool) (message : String) (details : GuardrailResponse)
  | exn (e : PyExn)
  deriving DecidableEq, Repr

/-- Result of `generate_and_analyze`: either the returned triple
`(passed, message, generated_text)` or a propagated exception. -/
inductive GAResult where
  | ok (passed : Bool) (message : String) (generated_text : String)
  | exn (e : PyExn)
  deriving DecidableEq, Repr

/-- An external call issued by the code: an `apply_guardrail` request or a
`predictor.predict` call against the named SageMaker endpoint. -/
inductive CallEvent where
  | applyGuardrail (req : GuardrailRequest)
  | predict (endpoint_name : String) (payload : GenPayload)
  deriving DecidableEq, Repr

/-- The `content` list built inside `analyze_text`: grounding source, query
and guarded content, each with its qualifier. -/
def guardrailContent (grounding_source query guard_content : String) :
    List ContentItem :=
  [⟨grounding_source, some ["grounding_source"]⟩,
   ⟨query, some ["query"]⟩,
   ⟨guard_content, some ["guard_content"]⟩]

/-- The full `apply_guardrail` request built inside
`TextGenerationWithGuardrails.analyze_text`. -/
def guardrailRequest (self : TGWG)
    (grounding_source query guard_content source : String) : GuardrailRequest :=
  ⟨self.guardrail_id, self.guardrail_version, source,
   guardrailContent grounding_source query guard_content⟩

/-- `TextGenerationWithGuardrails.generate_text`: posts the payload to the
endpoint and returns `response.get('generated_text', '')`, together with the
external call it issued. -/
def generate_text (self : TGWG) (env : Env) (inputs : String)
    (max_new_tokens : Nat) (temperature : ℚ) : String × List CallEvent :=
  let payload : GenPayload := ⟨inputs, ⟨max_new_tokens, temperature, "<|eot_id|>"⟩⟩
  let response := env.predict payload
  (response.generated_text.getD "", [CallEvent.predict self.endpoint_name payload])

/-- `TextGenerationWithGuardrails.analyze_text`: builds the three-part
content, calls `apply_guardrail`, and reduces the response.  A `ClientError`
raised by the call is caught, printed and re-raised; indexing
`response.get("outputs", [{}])[0]` raises an uncaught `IndexError` when the
`outputs` key is present but maps to an empty list. -/
def analyze_text (self : TGWG) (env : Env)
    (grounding_source query guard_content source : String) :
    AnalyzeResult × List CallEvent :=
  let req := guardrailRequest self grounding_source query guard_content source
  let result :=
    match env.applyGuardrail req with
    | .error e => AnalyzeResult.exn (PyExn.clientError e)
    | .ok response =>
      let action := response.action.getD ""
      if action = "NONE" then
        AnalyzeResult.ok true "" response
      else if action = "GUARDRAIL_INTERVENED" then
        match response.outputs.getD [⟨none⟩] with
        | [] => AnalyzeResult.exn PyExn.indexError
        | o :: _ => AnalyzeResult.ok false (o.text.getD "Guardrail intervened") response
      else
        AnalyzeResult.ok false ("Unknown action: " ++ action) response
  (result, [CallEvent.applyGuardrail req])

/-- `TextGenerationWithGuardrails.analyze_prompt`: analyze the input prompt
(`source="INPUT"`, the query is also the guarded content). -/
def analyze_prompt (self : TGWG) (env : Env) (grounding_source query : String) :
    AnalyzeResult × List CallEvent :=
  analyze_text self env grounding_source query query "INPUT"

/-- `TextGenerationWithGuardrails.analyze_output`: analyze the generated
output (`source="OUTPUT"`). -/
def analyze_output (self : TGWG) (env : Env)
    (grounding_source query generated_text : String) :
    AnalyzeResult × List CallEvent :=
  analyze_text self env grounding_source query generated_text "OUTPUT"

/-- `TextGenerationWithGuardrails.generate_and_analyze`: analyze the prompt;
if it fails return `(False, prompt_message, "")`; otherwise generate text,
analyze the output; if that fails return `(False, output_message, "")`;
otherwise return `(True, "", generated_text)`.  Exceptions escaping any step
propagate.  The second component collects the external calls in order. -/
def generate_and_analyze (self : TGWG) (env : Env)
    (grounding_source query : String) (max_new_tokens : Nat)
    (temperature : ℚ) : GAResult × List CallEvent :=
  match analyze_prompt self env grounding_source query with
  | (.exn e, tr1) => (.exn e, tr1)
  | (.ok prompt_passed prompt_message _, tr1) =>
    if prompt_passed then
      match analyze_output self env grounding_source query
          (generate_text self env query max_new_tokens temperature).1 with
      | (.exn e, tr3) =>
        (.exn e,
         tr1 ++ (generate_text self env query max_new_tokens temperature).2 ++ tr3)
      | (.ok output_passed output_message _, tr3) =>
        if output_passed then
          (.ok true "" (generate_text self env query max_new_tokens temperature).1,
           tr1 ++ (generate_text self env query max_new_tokens temperature).2 ++ tr3)
        else
          (.ok false output_message "",
           tr1 ++ (generate_text self env query max_new_tokens temperature).2 ++ tr3)
    else
      (.ok false prompt_message "", tr1)

end Guardrails

namespace RagLab

/-!
Embedding of the RAG notebook (`src/unnamed/part_001`): the output-side
guardrail helper `apply_output_guardrail`, the retrieval function
`retrieve_context` and its wrapper `get_opensearch_vector_context`.
-/

/-- The `apply_guardrail` request built by `apply_output_guardrail`:
`source='OUTPUT'` with a single unqualified content item. -/
def outputGuardrailRequest (guardrail_id guardrail_version output_text : String) :
    Guardrails.GuardrailRequest :=
  ⟨guardrail_id, guardrail_version, "OUTPUT", [⟨output_text, none⟩]⟩

/-- `apply_output_guardrail`: calls `apply_guardrail` on the generated text;
if the response has a non-empty `outputs` list it returns
`response['outputs'][0]['text']`, otherwise the original text.  The whole
body sits in a `try` whose `except Exception` clause returns the original
text, so a failed remote call — and likewise a `KeyError` when the first
output lacks a `text` key — falls back to `output_text`. -/
def apply_output_guardrail
    (bedrockApplyGuardrail :
      Guardrails.GuardrailRequest → Except String Guardrails.GuardrailResponse)
    (guardrail_id guardrail_version : String) (output_text : String) : String :=
  match bedrockApplyGuardrail
      (outputGuardrailRequest guardrail_id guardrail_version output_text) with
  | .error _ => output_text
  | .ok response =>
    match response.outputs with
    | some (o :: _) =>
      match o.text with
      | some t => t
      | none => output_text
    | _ => output_text

/-- One hit of an OpenSearch response; the code reads
`hit["_source"]["text"]`. -/
structure Hit where
  source_text : String
  deriving DecidableEq, Repr

/-- An OpenSearch search response, restricted to
`response["hits"]["hits"]`. -/
structure SearchResponse where
  hits : List Hit
  deriving DecidableEq, Repr

/-- The inner knn clause `{"vector": ..., "k": ...}` of the search body. -/
structure KnnClause where
  vector : List ℚ
  k : Nat
  deriving DecidableEq, Repr

/-- The search body `{"size": k, "query": {"knn": {"vector": {...}}}}`
built by `retrieve_context`. -/
structure SearchBody where
  size : Nat
  query_knn_vector : KnnClause
  deriving DecidableEq, Repr

/-- The external collaborators of the RAG retrieval functions: the
HuggingFace `feature-extraction` pipeline (`embedder`), whose output is a
nested list (batch × tokens × dimensions), the OpenSearch client's `search`
(index name and body to response), and the global `index_name`. -/
structure RagEnv where
  embedder : String → List (List (List ℚ))
  search : String → SearchBody → SearchResponse
  index_name : String

/-- `retrieve_context`: embeds the query (`embedder(query)[0][0]`), builds a
k-NN search body of size `k`, queries OpenSearch, and returns the `text`
field of every hit in response order.  `none` models the `IndexError`
raised by `[0][0]` when the pipeline output (or its first element) is
empty. -/
def retrieve_context (env : RagEnv) (query : String) (k : Nat) :
    Option (List String) :=
  match env.embedder query with
  | [] => none
  | first :: _ =>
    match first with
    | [] => none
    | query_embedding :: _ =>
      let search_body : SearchBody := ⟨k, ⟨query_embedding, k⟩⟩
      let response := env.search env.index_name search_body
      some (response.hits.map Hit.source_text)

/-- `get_opensearch_vector_context`: retrieves contexts with the default
`k=3` and returns `contexts[0]` when the list is non-empty, `None`
otherwise.  The outer `Option` models a propagated exception from
`retrieve_context`; the inner one is the Python `None`. -/
def get_opensearch_vector_context (env : RagEnv) (input_query : String) :
    Option (Option String) :=
  match retrieve_context env input_query 3 with
  | none => none
  | some contexts =>
    match contexts with
    | [] => some none
    | c :: _ => some (some c)

end RagLab

namespace Guardrails

/-!
## Scenario lemmas for `generate_and_analyze`

These factor the case analysis on the two guardrail oracles and the
generation oracle, and are shared by the claim theorems below.
-/

lemma analyze_prompt_pair (self : TGWG) (env : Env) (g q : String)
    (r : AnalyzeResult) (h : (analyze_prompt self env g q).1 = r) :
    analyze_prompt self env g q =
      (r, [CallEvent.applyGuardrail (guardrailRequest self g q q "INPUT")]) := by
  exact Prod.ext h rfl

lemma analyze_output_pair (self : TGWG) (env : Env) (g q gen : String)
    (r : AnalyzeResult) (h : (analyze_output self env g q gen).1 = r) :
    analyze_output self env g q gen =
      (r, [CallEvent.applyGuardrail (guardrailRequest self g q gen "OUTPUT")]) := by
  exact Prod.ext h rfl

lemma generate_and_analyze_of_prompt_exn (self : TGWG) (env : Env)
    (g q : String) (m : Nat) (t : ℚ) (e : PyExn)
    (h : (analyze_prompt self env g q).1 = AnalyzeResult.exn e) :
    generate_and_analyze self env g q m t =
      (GAResult.exn e,
       [CallEvent.applyGuardrail (guardrailRequest self g q q "INPUT")]) := by
  unfold generate_and_analyze
  rw [analyze_prompt_pair self env g q _ h]

lemma generate_and_analyze_of_prompt_fail (self : TGWG) (env : Env)
    (g q : String) (m : Nat) (t : ℚ) (msg : String) (d : GuardrailResponse)
    (h : (analyze_prompt self env g q).1 = AnalyzeResult.ok false msg d) :
    generate_and_analyze self env g q m t =
      (GAResult.ok false msg "",
       [CallEvent.applyGuardrail (guardrailRequest self g q q "INPUT")]) := by
  unfold generate_and_analyze
  rw [analyze_prompt_pair self env g q _ h]
  rfl

lemma generate_and_analyze_of_prompt_pass (self : TGWG) (env : Env)
    (g q : String) (m : Nat) (t : ℚ) (msg : String) (d : GuardrailResponse)
    (h : (analyze_prompt self env g q).1 = AnalyzeResult.ok true msg d) :
    generate_and_analyze self env g q m t =
      (match (analyze_output self env g q (generate_text self env q m t).1).1 with
       | AnalyzeResult.exn e => GAResult.exn e
       | AnalyzeResult.ok true _ _ =>
           GAResult.ok true "" (generate_text self env q m t).1
       | AnalyzeResult.ok false msg2 _ => GAResult.ok false msg2 "",
       [CallEvent.applyGuardrail (guardrailRequest self g q q "INPUT"),
        CallEvent.predict self.endpoint_name ⟨q, ⟨m, t, "<|eot_id|>"⟩⟩,
        CallEvent.applyGuardrail
          (guardrailRequest self g q (generate_text self env q m t).1 "OUTPUT")]) := by
  unfold generate_and_analyze
  rw [analyze_prompt_pair self env g q _ h]
  rcases ho : (analyze_output self env g q (generate_text self env q m t).1).1 with
    ⟨passed, msg2, d2⟩ | e
  · rw [analyze_output_pair self env g q _ _ ho]
    cases passed <;> rfl
  · rw [analyze_output_pair self env g q _ _ ho]
    rfl

/-- C1: for every query, `generate_and_analyze` performs the input guardrail
check first — the first external call is always the `apply_guardrail`
request with `source="INPUT"` — and whenever that check does not pass it
returns `(False, guardrail message, "")` having issued no other external
call, in particular never invoking the text-generation endpoint. -/
theorem generate_and_analyze_input_check_first (self : TGWG) (env : Env)
    (grounding_source query : String) (max_new_tokens : Nat) (temperature : ℚ) :
    (generate_and_analyze self env grounding_source query max_new_tokens
        temperature).2.head? =
      some (CallEvent.applyGuardrail
        (guardrailRequest self grounding_source query query "INPUT"))
    ∧ ∀ msg d,
        (analyze_prompt self env grounding_source query).1 =
          AnalyzeResult.ok false msg d →
        generate_and_analyze self env grounding_source query max_new_tokens
            temperature =
          (GAResult.ok false msg "",
           [CallEvent.applyGuardrail
             (guardrailRequest self grounding_source query query "INPUT")]) := by
  constructor
  · rcases hp : (analyze_prompt self env grounding_source query).1 with ⟨passed, msg, d⟩ | e
    · cases passed
      · rw [generate_and_analyze_of_prompt_fail self env _ _ _ _ _ _ hp]
        rfl
      · rw [generate_and_analyze_of_prompt_pass self env _ _ _ _ _ _ hp]
        rfl
    · rw [generate_and_analyze_of_prompt_exn self env _ _ _ _ _ hp]
      rfl
  · intro msg d h
    exact generate_and_analyze_of_prompt_fail self env _ _ _ _ _ _ h

/-- A concrete instance configuration for witnesses. -/
def selfW : TGWG := ⟨"my-endpoint", "my-model", "guardrail-1", "DRAFT"⟩

/-- A guardrail response in which the guardrail intervened with a message. -/
def respBlocked : GuardrailResponse :=
  ⟨some "GUARDRAIL_INTERVENED", some [⟨some "Blocked by guardrail"⟩]⟩

/-- An environment whose guardrail always intervenes and whose endpoint
always generates `"gen"`. -/
def envBlocked : Env :=
  ⟨fun _ => Except.ok respBlocked, fun _ => ⟨some "gen"⟩⟩

/-- Witness for C1 at a concrete environment whose input check fails. -/
theorem generate_and_analyze_input_check_first_witness :
    generate_and_analyze selfW envBlocked "gs" "qq" 7 0 =
      (GAResult.ok false "Blocked by guardrail" "",
       [CallEvent.applyGuardrail
         (guardrailRequest selfW "gs" "qq" "qq" "INPUT")]) :=
  (generate_and_analyze_input_check_first selfW envBlocked "gs" "qq" 7 0).2
    "Blocked by guardrail" respBlocked rfl

/-- C2: if the input guardrail check passes but the output guardrail check
on the generated text does not, `generate_and_analyze` returns
`(False, output guardrail message, "")`: the generated text is withheld. -/
theorem generate_and_analyze_withholds_blocked_output (self : TGWG) (env : Env)
    (grounding_source query : String) (max_new_tokens : Nat) (temperature : ℚ)
    (msg1 : String) (d1 : GuardrailResponse) (msg2 : String)
    (d2 : GuardrailResponse)
    (h1 : (analyze_prompt self env grounding_source query).1 =
      AnalyzeResult.ok true msg1 d1)
    (h2 : (analyze_output self env grounding_source query
        (generate_text self env query max_new_tokens temperature).1).1 =
      AnalyzeResult.ok false msg2 d2) :
    generate_and_analyze self env grounding_source query max_new_tokens
        temperature =
      (GAResult.ok false msg2 "",
       [CallEvent.applyGuardrail
         (guardrailRequest self grounding_source query query "INPUT"),
        CallEvent.predict self.endpoint_name
          ⟨query, ⟨max_new_tokens, temperature, "<|eot_id|>"⟩⟩,
        CallEvent.applyGuardrail
          (guardrailRequest self grounding_source query
            (generate_text self env query max_new_tokens temperature).1
            "OUTPUT")]) := by
  rw [generate_and_analyze_of_prompt_pass self env _ _ _ _ _ _ h1, h2]

/-- A guardrail response whose action is `NONE` (check passed). -/
def respNone : GuardrailResponse := ⟨some "NONE", none⟩

/-- An environment whose input guardrail passes, whose endpoint generates
`"gen"`, and whose output guardrail intervenes. -/
def envMixed : Env :=
  ⟨fun req => if req.source = "INPUT" then Except.ok respNone
              else Except.ok respBlocked,
   fun _ => ⟨some "gen"⟩⟩

/-- Witness for C2 at a concrete environment: input passes, output fails. -/
theorem generate_and_analyze_withholds_blocked_output_witness :
    generate_and_analyze selfW envMixed "gs" "qq" 7 0 =
      (GAResult.ok false "Blocked by guardrail" "",
       [CallEvent.applyGuardrail (guardrailRequest selfW "gs" "qq" "qq" "INPUT"),
        CallEvent.predict selfW.endpoint_name ⟨"qq", ⟨7, 0, "<|eot_id|>"⟩⟩,
        CallEvent.applyGuardrail
          (guardrailRequest selfW "gs" "qq"
            (generate_text selfW envMixed "qq" 7 0).1 "OUTPUT")]) :=
  generate_and_analyze_withholds_blocked_output selfW envMixed "gs" "qq" 7 0
    "" respNone "Blocked by guardrail" respBlocked rfl rfl

/-- C3: if both guardrail checks pass, `generate_and_analyze` returns
`(True, "", generated_text)` where `generated_text` is exactly the
`generated_text` field of the generation-endpoint response (the empty
string when that field is absent), as produced by `generate_text`. -/
theorem generate_and_analyze_passes_generated_text (self : TGWG) (env : Env)
    (grounding_source query : String) (max_new_tokens : Nat) (temperature : ℚ)
    (msg1 : String) (d1 : GuardrailResponse) (msg2 : String)
    (d2 : GuardrailResponse)
    (h1 : (analyze_prompt self env grounding_source query).1 =
      AnalyzeResult.ok true msg1 d1)
    (h2 : (analyze_output self env grounding_source query
        (generate_text self env query max_new_tokens temperature).1).1 =
      AnalyzeResult.ok true msg2 d2) :
    (generate_and_analyze self env grounding_source query max_new_tokens
        temperature).1 =
      GAResult.ok true ""
        ((env.predict ⟨query, ⟨max_new_tokens, temperature, "<|eot_id|>"⟩⟩
          ).generated_text.getD "")
    ∧ (generate_text self env query max_new_tokens temperature).1 =
        (env.predict ⟨query, ⟨max_new_tokens, temperature, "<|eot_id|>"⟩⟩
          ).generated_text.getD "" := by
  refine ⟨?_, rfl⟩
  rw [generate_and_analyze_of_prompt_pass self env _ _ _ _ _ _ h1]
  simp only [h2]
  rfl

/-- An environment in which both guardrail checks pass. -/
def envPass : Env := ⟨fun _ => Except.ok respNone, fun _ => ⟨some "gen"⟩⟩

/-- Witness for C3 at a concrete environment where both checks pass. -/
theorem generate_and_analyze_passes_generated_text_witness :
    (generate_and_analyze selfW envPass "gs" "qq" 7 0).1 =
      GAResult.ok true ""
        ((envPass.predict ⟨"qq", ⟨7, 0, "<|eot_id|>"⟩⟩).generated_text.getD "")
    ∧ (generate_text selfW envPass "qq" 7 0).1 =
        (envPass.predict ⟨"qq", ⟨7, 0, "<|eot_id|>"⟩⟩).generated_text.getD "" :=
  generate_and_analyze_passes_generated_text selfW envPass "gs" "qq" 7 0
    "" respNone "" respNone rfl rfl

/-- A guardrail response whose `outputs` key is present but an empty list. -/
def respEmptyOutputs : GuardrailResponse := ⟨some "GUARDRAIL_INTERVENED", some []⟩

/-- An environment whose guardrail intervenes with an empty `outputs`
list. -/
def envEmptyOutputs : Env :=
  ⟨fun _ => Except.ok respEmptyOutputs, fun _ => ⟨none⟩⟩

/-- Counterexample for C4: when the response has
`action = "GUARDRAIL_INTERVENED"` and an `outputs` key that is present but
an empty list, `analyze_text` does not return
`(False, "Guardrail intervened", ...)`: indexing
`response.get("outputs", [{}])[0]` raises an uncaught `IndexError`. -/
theorem analyze_text_empty_outputs_counterexample :
    (analyze_text selfW envEmptyOutputs "gs" "qq" "qq" "INPUT").1 =
      AnalyzeResult.exn PyExn.indexError
    ∧ (analyze_text selfW envEmptyOutputs "gs" "qq" "qq" "INPUT").1 ≠
        AnalyzeResult.ok false "Guardrail intervened" respEmptyOutputs := by
  refine ⟨rfl, fun h => ?_⟩
  rw [show (analyze_text selfW envEmptyOutputs "gs" "qq" "qq" "INPUT").1 =
      AnalyzeResult.exn PyExn.indexError from rfl] at h
  exact AnalyzeResult.noConfusion h

/-- C4 (amended): `analyze_text` reduces the remote response to pass/fail:
it returns `passed = True` with an empty message exactly when the `action`
field equals `"NONE"`; for `action = "GUARDRAIL_INTERVENED"` it returns
`False` with the text of the first output (`"Guardrail intervened"` when
that output has no text, with the absent-`outputs` case defaulting to a
single empty output), except that an `outputs` key present but equal to the
empty list makes the indexing of the first output raise an uncaught
`IndexError`; and for any other action value it returns `False` with an
`"Unknown action"` message. -/
theorem analyze_text_reduction (self : TGWG) (env : Env)
    (g q gc src : String) (resp : GuardrailResponse)
    (h : env.applyGuardrail (guardrailRequest self g q gc src) =
      Except.ok resp) :
    ((analyze_text self env g q gc src).1 = AnalyzeResult.ok true "" resp ↔
      resp.action.getD "" = "NONE")
    ∧ (resp.action.getD "" = "GUARDRAIL_INTERVENED" →
        (resp.outputs = some [] →
          (analyze_text self env g q gc src).1 =
            AnalyzeResult.exn PyExn.indexError)
        ∧ ∀ o os, resp.outputs.getD [⟨none⟩] = o :: os →
            (analyze_text self env g q gc src).1 =
              AnalyzeResult.ok false (o.text.getD "Guardrail intervened") resp)
    ∧ (resp.action.getD "" ≠ "NONE" →
        resp.action.getD "" ≠ "GUARDRAIL_INTERVENED" →
        (analyze_text self env g q gc src).1 =
          AnalyzeResult.ok false ("Unknown action: " ++ resp.action.getD "")
            resp) := by
  have key : (analyze_text self env g q gc src).1 =
      (if resp.action.getD "" = "NONE" then AnalyzeResult.ok true "" resp
       else if resp.action.getD "" = "GUARDRAIL_INTERVENED" then
         match resp.outputs.getD [⟨none⟩] with
         | [] => AnalyzeResult.exn PyExn.indexError
         | o :: _ =>
             AnalyzeResult.ok false (o.text.getD "Guardrail intervened") resp
       else
         AnalyzeResult.ok false ("Unknown action: " ++ resp.action.getD "")
           resp) := by
    simp only [analyze_text, h]
  refine ⟨⟨fun hx => ?_, fun ha => ?_⟩,
          fun ha => ⟨fun hso => ?_, fun o os houts => ?_⟩,
          fun ha hb => ?_⟩
  · by_cases ha : resp.action.getD "" = "NONE"
    · exact ha
    · rw [key, if_neg ha] at hx
      by_cases hb : resp.action.getD "" = "GUARDRAIL_INTERVENED"
      · rw [if_pos hb] at hx
        rcases houts : resp.outputs.getD [⟨none⟩] with _ | ⟨o, os⟩
        · rw [houts] at hx
          exact AnalyzeResult.noConfusion hx
        · rw [houts] at hx
          simp at hx
      · rw [if_neg hb] at hx
        simp at hx
  · rw [key, if_pos ha]
  · have hne : resp.action.getD "" ≠ "NONE" := by rw [ha]; decide
    rw [key, if_neg hne, if_pos ha, hso]
    rfl
  · have hne : resp.action.getD "" ≠ "NONE" := by rw [ha]; decide
    rw [key, if_neg hne, if_pos ha, houts]
  · rw [key, if_neg ha, if_neg hb]

/-- Witness for the amended C4 at a concrete intervening response. -/
theorem analyze_text_reduction_witness :
    (analyze_text selfW envBlocked "gs" "qq" "qq" "INPUT").1 =
      AnalyzeResult.ok false "Blocked by guardrail" respBlocked :=
  ((analyze_text_reduction selfW envBlocked "gs" "qq" "qq" "INPUT" respBlocked
      rfl).2.1 rfl).2 ⟨some "Blocked by guardrail"⟩ [] rfl

/-- C6: each run of `generate_and_analyze` is a linear three-step pipeline:
its external-call trace is either the input guardrail call alone, or the
input guardrail call, then one generation call, then one output guardrail
call — so each of the three operations is invoked at most once, in that
order, with no retries or loops. -/
theorem generate_and_analyze_linear_pipeline (self : TGWG) (env : Env)
    (grounding_source query : String) (max_new_tokens : Nat)
    (temperature : ℚ) :
    (generate_and_analyze self env grounding_source query max_new_tokens
        temperature).2 =
      [CallEvent.applyGuardrail
        (guardrailRequest self grounding_source query query "INPUT")]
    ∨ (generate_and_analyze self env grounding_source query max_new_tokens
        temperature).2 =
      [CallEvent.applyGuardrail
        (guardrailRequest self grounding_source query query "INPUT"),
       CallEvent.predict self.endpoint_name
         ⟨query, ⟨max_new_tokens, temperature, "<|eot_id|>"⟩⟩,
       CallEvent.applyGuardrail
         (guardrailRequest self grounding_source query
           (generate_text self env query max_new_tokens temperature).1
           "OUTPUT")] := by
  rcases hp : (analyze_prompt self env grounding_source query).1 with
    ⟨passed, msg, d⟩ | e
  · cases passed
    · left
      rw [generate_and_analyze_of_prompt_fail self env _ _ _ _ _ _ hp]
    · right
      rw [generate_and_analyze_of_prompt_pass self env _ _ _ _ _ _ hp]
  · left
    rw [generate_and_analyze_of_prompt_exn self env _ _ _ _ _ hp]

/-- Congruence for `analyze_text` in the environment: the result depends
only on the response to the request it issues. -/
lemma analyze_text_congr (self : TGWG) (env₁ env₂ : Env)
    (g q gc src : String)
    (h : env₁.applyGuardrail (guardrailRequest self g q gc src) =
      env₂.applyGuardrail (guardrailRequest self g q gc src)) :
    analyze_text self env₁ g q gc src = analyze_text self env₂ g q gc src := by
  simp only [analyze_text]
  rw [h]

/-- Congruence for `generate_text` in the environment. -/
lemma generate_text_congr (self : TGWG) (env₁ env₂ : Env) (inputs : String)
    (m : Nat) (t : ℚ)
    (h : env₁.predict ⟨inputs, ⟨m, t, "<|eot_id|>"⟩⟩ =
      env₂.predict ⟨inputs, ⟨m, t, "<|eot_id|>"⟩⟩) :
    generate_text self env₁ inputs m t = generate_text self env₂ inputs m t := by
  simp only [generate_text]
  rw [h]

/-- C7: `generate_and_analyze` is deterministic in the responses of the
external services: two runs with the same configuration, the same inputs
and parameters, and the same responses to the guardrail and generation
requests they issue return the same result (triple and call trace).  The
configuration (`self`) is immutable — set in `__init__` and never
reassigned — so no mutable state can distinguish the runs. -/
theorem generate_and_analyze_deterministic (self : TGWG) (env₁ env₂ : Env)
    (grounding_source query : String) (max_new_tokens : Nat)
    (temperature : ℚ)
    (hin : env₁.applyGuardrail
        (guardrailRequest self grounding_source query query "INPUT") =
      env₂.applyGuardrail
        (guardrailRequest self grounding_source query query "INPUT"))
    (hgen : env₁.predict ⟨query, ⟨max_new_tokens, temperature, "<|eot_id|>"⟩⟩ =
      env₂.predict ⟨query, ⟨max_new_tokens, temperature, "<|eot_id|>"⟩⟩)
    (hout : ∀ gen, env₁.applyGuardrail
        (guardrailRequest self grounding_source query gen "OUTPUT") =
      env₂.applyGuardrail
        (guardrailRequest self grounding_source query gen "OUTPUT")) :
    generate_and_analyze self env₁ grounding_source query max_new_tokens
        temperature =
      generate_and_analyze self env₂ grounding_source query max_new_tokens
        temperature := by
  have hprompt : analyze_prompt self env₁ grounding_source query =
      analyze_prompt self env₂ grounding_source query :=
    analyze_text_congr self env₁ env₂ grounding_source query query "INPUT" hin
  have hgen' : generate_text self env₁ query max_new_tokens temperature =
      generate_text self env₂ query max_new_tokens temperature :=
    generate_text_congr self env₁ env₂ query max_new_tokens temperature hgen
  have hout' : analyze_output self env₁ grounding_source query
        (generate_text self env₂ query max_new_tokens temperature).1 =
      analyze_output self env₂ grounding_source query
        (generate_text self env₂ query max_new_tokens temperature).1 :=
    analyze_text_congr self env₁ env₂ grounding_source query _ "OUTPUT"
      (hout _)
  unfold generate_and_analyze
  rw [hprompt, hgen', hout']

/-- A second concrete environment, definitionally distinct from `envPass`
but giving the same responses. -/
def envPass' : Env :=
  ⟨fun _ => Except.ok ⟨some "NONE", none⟩, fun _ => ⟨some "gen"⟩⟩

/-- Witness for C7 at two concrete environments with equal responses. -/
theorem generate_and_analyze_deterministic_witness :
    generate_and_analyze selfW envPass "gs" "qq" 7 0 =
      generate_and_analyze selfW envPass' "gs" "qq" 7 0 :=
  generate_and_analyze_deterministic selfW envPass envPass' "gs" "qq" 7 0
    rfl rfl (fun _ => rfl)

/-- C10: a `ClientError` raised by the remote `apply_guardrail` call is
re-raised by `analyze_text`, and `generate_and_analyze` propagates it —
whether it occurs on the input check or on the output check — instead of
returning a `(passed, message, generated_text)` triple. -/
theorem analyze_text_client_error_propagates (self : TGWG) (env : Env)
    (grounding_source query : String) (max_new_tokens : Nat)
    (temperature : ℚ) (e : String) :
    (∀ g q gc src,
      env.applyGuardrail (guardrailRequest self g q gc src) = Except.error e →
      (analyze_text self env g q gc src).1 =
        AnalyzeResult.exn (PyExn.clientError e))
    ∧ (env.applyGuardrail
          (guardrailRequest self grounding_source query query "INPUT") =
        Except.error e →
      (generate_and_analyze self env grounding_source query max_new_tokens
          temperature).1 = GAResult.exn (PyExn.clientError e))
    ∧ (∀ msg d,
        (analyze_prompt self env grounding_source query).1 =
          AnalyzeResult.ok true msg d →
        env.applyGuardrail
            (guardrailRequest self grounding_source query
              (generate_text self env query max_new_tokens temperature).1
              "OUTPUT") =
          Except.error e →
        (generate_and_analyze self env grounding_source query max_new_tokens
            temperature).1 = GAResult.exn (PyExn.clientError e)) := by
  have hred : ∀ g q gc src,
      env.applyGuardrail (guardrailRequest self g q gc src) = Except.error e →
      (analyze_text self env g q gc src).1 =
        AnalyzeResult.exn (PyExn.clientError e) := by
    intro g q gc src h
    simp only [analyze_text, h]
  refine ⟨hred, fun h => ?_, fun msg d h1 h2 => ?_⟩
  · rw [generate_and_analyze_of_prompt_exn self env _ _ _ _ _
      (hred _ _ _ _ h)]
  · rw [generate_and_analyze_of_prompt_pass self env _ _ _ _ _ _ h1]
    simp only [analyze_output, hred _ _ _ _ h2]

/-- An environment whose guardrail calls always raise a `ClientError`. -/
def envErr : Env :=
  ⟨fun _ => Except.error "AccessDeniedException", fun _ => ⟨some "gen"⟩⟩

/-- Witness for C10 at a concrete always-failing guardrail service. -/
theorem analyze_text_client_error_propagates_witness :
    (generate_and_analyze selfW envErr "gs" "qq" 7 0).1 =
      GAResult.exn (PyExn.clientError "AccessDeniedException") :=
  (analyze_text_client_error_propagates selfW envErr "gs" "qq" 7 0
    "AccessDeniedException").2.1 rfl

end Guardrails

namespace RagLab

/-- C8: `apply_output_guardrail` fails open: if the `apply_guardrail` call
raises any exception, or if the response lacks a non-empty `outputs` field,
the original `output_text` is returned unchanged; otherwise the text of the
first element of `outputs` is returned. -/
theorem apply_output_guardrail_fails_open
    (bedrockApplyGuardrail :
      Guardrails.GuardrailRequest → Except String Guardrails.GuardrailResponse)
    (guardrail_id guardrail_version output_text : String) :
    (∀ e, bedrockApplyGuardrail
        (outputGuardrailRequest guardrail_id guardrail_version output_text) =
        Except.error e →
      apply_output_guardrail bedrockApplyGuardrail guardrail_id
        guardrail_version output_text = output_text)
    ∧ ∀ resp, bedrockApplyGuardrail
        (outputGuardrailRequest guardrail_id guardrail_version output_text) =
        Except.ok resp →
      (resp.outputs = none →
        apply_output_guardrail bedrockApplyGuardrail guardrail_id
          guardrail_version output_text = output_text)
      ∧ (resp.outputs = some [] →
        apply_output_guardrail bedrockApplyGuardrail guardrail_id
          guardrail_version output_text = output_text)
      ∧ ∀ o os t, resp.outputs = some (o :: os) → o.text = some t →
        apply_output_guardrail bedrockApplyGuardrail guardrail_id
          guardrail_version output_text = t := by
  constructor
  · intro e h
    unfold apply_output_guardrail
    rw [h]
  · intro resp h
    refine ⟨fun hn => ?_, fun he => ?_, fun o os t hs ht => ?_⟩
    · simp only [apply_output_guardrail, h, hn]
    · simp only [apply_output_guardrail, h, he]
    · simp only [apply_output_guardrail, h, hs, ht]

/-- A guardrail response carrying a single filtered output text. -/
def respFiltered : Guardrails.GuardrailResponse :=
  ⟨some "GUARDRAIL_INTERVENED", some [⟨some "filtered"⟩]⟩

/-- A guardrail oracle that always returns `respFiltered`. -/
def callFiltered :
    Guardrails.GuardrailRequest → Except String Guardrails.GuardrailResponse :=
  fun _ => Except.ok respFiltered

/-- Witness for C8: the filtered text replaces the raw output. -/
theorem apply_output_guardrail_fails_open_witness :
    apply_output_guardrail callFiltered "gid" "v1" "raw output" = "filtered" :=
  ((apply_output_guardrail_fails_open callFiltered "gid" "v1" "raw output").2
    respFiltered rfl).2.2 ⟨some "filtered"⟩ [] "filtered" rfl rfl

/-- C5: for every query and positive `k`, `retrieve_context` embeds the
query, issues a k-NN search of size `k` with that embedding vector against
the configured index, and returns exactly the `text` fields of the hits in
response order; assuming the search service honours the requested `size`,
the result has at most `k` elements. -/
theorem retrieve_context_embeds_then_knn (env : RagEnv) (query : String)
    (k : Nat) (v : List ℚ) (vt : List (List ℚ)) (ot : List (List (List ℚ)))
    (hk : 0 < k)
    (hemb : env.embedder query = (v :: vt) :: ot)
    (hsize : ∀ idx body, ((env.search idx body).hits).length ≤ body.size) :
    retrieve_context env query k =
      some (((env.search env.index_name ⟨k, ⟨v, k⟩⟩).hits).map Hit.source_text)
    ∧ ∀ texts, retrieve_context env query k = some texts → texts.length ≤ k := by
  have h1 : retrieve_context env query k =
      some (((env.search env.index_name ⟨k, ⟨v, k⟩⟩).hits).map
        Hit.source_text) := by
    unfold retrieve_context
    rw [hemb]
  refine ⟨h1, fun texts ht => ?_⟩
  rw [h1] at ht
  obtain rfl := (Option.some.injEq _ _).mp ht.symm
  calc (((env.search env.index_name ⟨k, ⟨v, k⟩⟩).hits).map
        Hit.source_text).length
      = ((env.search env.index_name ⟨k, ⟨v, k⟩⟩).hits).length :=
        List.length_map _ _
    _ ≤ k := hsize env.index_name ⟨k, ⟨v, k⟩⟩

/-- A concrete RAG environment: a one-vector embedder and a search service
returning exactly `size` hits, each with text `"ctx"`. -/
def ragEnvW : RagEnv :=
  ⟨fun _ => [[[1]]],
   fun _ body => ⟨List.replicate body.size ⟨"ctx"⟩⟩,
   "idx"⟩

/-- Witness for C5 at the concrete environment, with `k = 3`. -/
theorem retrieve_context_embeds_then_knn_witness :
    retrieve_context ragEnvW "q" 3 =
      some (((ragEnvW.search ragEnvW.index_name ⟨3, ⟨[1], 3⟩⟩).hits).map
        Hit.source_text)
    ∧ ∀ texts, retrieve_context ragEnvW "q" 3 = some texts →
        texts.length ≤ 3 :=
  retrieve_context_embeds_then_knn ragEnvW "q" 3 [1] [] [] (by decide) rfl
    (fun idx body => by
      show (List.replicate body.size (⟨"ctx"⟩ : Hit)).length ≤ body.size
      simp)

/-- C9: `get_opensearch_vector_context` keeps only the first retrieved
context passage — the remaining hits are discarded — and yields `None`
when the retrieval returns an empty list. -/
theorem get_opensearch_vector_context_first_only (env : RagEnv)
    (input_query : String) (contexts : List String)
    (h : retrieve_context env input_query 3 = some contexts) :
    get_opensearch_vector_context env input_query = some contexts.head? := by
  unfold get_opensearch_vector_context
  rw [h]
  cases contexts <;> rfl

/-- Witness for C9: with three retrieved passages, only the first is
returned. -/
theorem get_opensearch_vector_context_first_only_witness :
    get_opensearch_vector_context ragEnvW "q" = some (some "ctx") :=
  get_opensearch_vector_context_first_only ragEnvW "q" ["ctx", "ctx", "ctx"]
    rfl

end RagLab
